import Mathlib

/-!
Verification of `src/Defense/bergeon/src/framework/secondary.py`, the
`Secondary` (conscience) model wrapper.

The Python class holds two externally loaded (model, tokenizer) pairs and
exposes critique generation, prompt formatting and a denylist validity
check.  External inference is embedded as an oracle environment; the
external `universalmodels` provider is embedded as a record of fallible
resolution functions; Python methods that only read `self` are embedded in
state-passing style, returning the (unchanged) state next to their result.
-/

/-- An opaque reference to a loaded pretrained model, as returned by the
external provider.  Only `name_or_path` is ever read by `secondary.py`
(in the `name` property). -/
structure ModelRef where
  name_or_path : String
deriving DecidableEq, Repr

/-- An opaque reference to a loaded tokenizer, as returned by the external
provider.  `secondary.py` only passes it through to generation. -/
structure TokenizerRef where
  tid : String
deriving DecidableEq, Repr

/-- The external `ModelSrc` enum of `universalmodels`.  `secondary.py` only
names its `AUTO` member (the default source hint); other members are
abstracted as tagged values. -/
inductive ModelSrc where
  | AUTO : ModelSrc
  | OTHER : String → ModelSrc
deriving DecidableEq, Repr

/-- The external `ModelInfo` descriptor of `universalmodels`: a name, a
source hint and a task tag, resolved externally into a (model, tokenizer)
pair. -/
structure ModelInfo where
  name : String
  src : ModelSrc
  task : String
deriving DecidableEq, Repr

/-- The `Secondary` instance state: the two (model, tokenizer) pairs bound
by `__init__` (`self.critique_model`, `self.critique_tokenizer`,
`self.rephrase_model`, `self.rephrase_tokenizer`). -/
structure Secondary where
  critique_model : ModelRef
  critique_tokenizer : TokenizerRef
  rephrase_model : ModelRef
  rephrase_tokenizer : TokenizerRef
deriving DecidableEq, Repr

/-- A generation environment: the outcome of one external inference call as
a function of the prompt text, the model and the tokenizer.  Generation
options (`**kwargs`) are an opaque pass-through in the source and are
absorbed into the choice of environment. -/
def GenEnv : Type := String → ModelRef → TokenizerRef → String

/-- Modelled from the spec: `FrameworkModel.generate_using` (defined in
`src/framework/framework_model.py`, which is not under src/) runs the
given model over the prompt text using its tokenizer via external
inference; embedded as the oracle environment applied to the prompt,
model and tokenizer. -/
def generate_using (env : GenEnv) (prompt : String) (model : ModelRef)
    (tokenizer : TokenizerRef) : String :=
  env prompt model tokenizer

/-- Modelled from the spec: `PROMPT_CRITIQUE_PROMPT` (from `src/strings`,
not under src/) is the fixed prompt-critique-request template; Python
`.format(prompt=prompt)` fills its single named slot. -/
def PROMPT_CRITIQUE_PROMPT_format (prompt : String) : String :=
  "Critique the following prompt and flag unsafe content: " ++ prompt

/-- Modelled from the spec: `RESPONSE_CRITIQUE_PROMPT` (from `src/strings`,
not under src/) is the fixed response-critique-request template; Python
`.format(response=response)` fills its single named slot. -/
def RESPONSE_CRITIQUE_PROMPT_format (response : String) : String :=
  "Critique the following response and flag unsafe content: " ++ response

/-- Modelled from the spec: `CONSCIENCE_DISCLAIMER_PROMPT` (from
`src/strings`, not under src/) is the fixed conscience-disclaimer template
with named substitution slots `prompt_critique` and `prompt`; Python
`.format` substitutes both values into the fixed surrounding text. -/
def CONSCIENCE_DISCLAIMER_PROMPT_format (prompt_critique prompt : String) : String :=
  "Your conscience flagged this input: " ++ prompt_critique ++
    " The original input was: " ++ prompt

/-- Modelled from the spec: `RESPONSE_CORRECTION_PROMPT` (from
`src/strings`, not under src/) is the fixed response-correction template
with named substitution slots `response` and `response_critique`; Python
`.format` substitutes both values into the fixed surrounding text. -/
def RESPONSE_CORRECTION_PROMPT_format (response response_critique : String) : String :=
  "Please revise this response: " ++ response ++
    " using this critique: " ++ response_critique

/-- The local `no_critique_flags` list of `is_valid_critique`. -/
def no_critique_flags : List String := ["no change", "not change", "not adversarial"]

/-- Python `str.lower()` on the character sequence of a string (ASCII
lowering, which agrees with Python on the ASCII denylist entries). -/
def lowerChars (s : String) : List Char := s.toList.map Char.toLower

/-- Python `flag.lower() in critique.lower()`: case-insensitive substring
membership test. -/
def containsLC (critique flag : String) : Bool :=
  decide (lowerChars flag <:+: lowerChars critique)

/-- `Secondary.is_valid_critique`: returns false as soon as some flag of
`no_critique_flags`, lowercased, occurs in the lowercased critique, and
true when the loop finishes without a match. -/
def Secondary.is_valid_critique (critique : String) : Bool :=
  !(no_critique_flags.any (fun flag => containsLC critique flag))

/-- Spec-side predicate: the text contains, as a case-insensitive
substring, at least one of the three negative markers (stated from the
words of the specification, to be compared with the code's
`is_valid_critique`). -/
def hasNegativeMarker (s : String) : Bool :=
  decide ("no change".toList <:+: lowerChars s) ||
  decide ("not change".toList <:+: lowerChars s) ||
  decide ("not adversarial".toList <:+: lowerChars s)

/-- `Secondary.name`: the f-string `f"S({self.critique_model.name_or_path})"`. -/
def Secondary.name (s : Secondary) : String :=
  "S(" ++ s.critique_model.name_or_path ++ ")"

/-- `Secondary.generate`: runs the critique model over the prompt.  The
second component records the instance state after the call (the method
body assigns no attribute). -/
def Secondary.generate (env : GenEnv) (s : Secondary) (prompt : String) :
    String × Secondary :=
  (generate_using env prompt s.critique_model s.critique_tokenizer, s)

/-- `Secondary.rephrase`: runs the rephrase model over the text. -/
def Secondary.rephrase (env : GenEnv) (s : Secondary) (text : String) :
    String × Secondary :=
  (generate_using env text s.rephrase_model s.rephrase_tokenizer, s)

/-- `Secondary.critique_prompt`: formats the prompt-critique template,
generates with the critique model, and returns the critique when valid,
`""` otherwise. -/
def Secondary.critique_prompt (env : GenEnv) (s : Secondary) (prompt : String) :
    String × Secondary :=
  let critique_response :=
    generate_using env (PROMPT_CRITIQUE_PROMPT_format prompt)
      s.critique_model s.critique_tokenizer
  (if Secondary.is_valid_critique critique_response then critique_response else "", s)

/-- `Secondary.critique_response`: formats the response-critique template,
generates with the critique model, and returns the critique when valid,
`""` otherwise. -/
def Secondary.critique_response (env : GenEnv) (s : Secondary) (response : String) :
    String × Secondary :=
  let critique_response :=
    generate_using env (RESPONSE_CRITIQUE_PROMPT_format response)
      s.critique_model s.critique_tokenizer
  (if Secondary.is_valid_critique critique_response then critique_response else "", s)

/-- `Secondary.make_conscience_prompt`: fills the conscience-disclaimer
template with the critique and the prompt (a static method, no model
call). -/
def Secondary.make_conscience_prompt (prompt prompt_critique : String) : String :=
  CONSCIENCE_DISCLAIMER_PROMPT_format prompt_critique prompt

/-- `Secondary.make_correction_prompt`: fills the response-correction
template with the response and the critique (a static method, no model
call). -/
def Secondary.make_correction_prompt (response response_critique : String) : String :=
  RESPONSE_CORRECTION_PROMPT_format response response_critique

/-- The external `universalmodels` provider, as the two resolution
operations `secondary.py` imports; each call may fail with a
provider-chosen error of type `ε` (Python: raise an exception). -/
structure Provider (ε : Type) where
  pretrained_from_info : ModelInfo → Except ε (ModelRef × TokenizerRef)
  model_info_from_name : String → ModelSrc → String → Except ε ModelInfo

/-- `Secondary.__init__`: resolves the critique pair, then the rephrase
pair, with no exception handling (a provider error propagates). -/
def Secondary.init (ε : Type) (P : Provider ε) (critique_model_info rephrase_model_info : ModelInfo) :
    Except ε Secondary := do
  let cp ← P.pretrained_from_info critique_model_info
  let rp ← P.pretrained_from_info rephrase_model_info
  return ⟨cp.1, cp.2, rp.1, rp.2⟩

/-- `Secondary.from_model_names` with all arguments supplied: resolves the
critique name with task `"conversational"`, the rephrase name with task
`"summarization"`, then delegates to `__init__`; no exception handling. -/
def Secondary.from_model_names (ε : Type) (P : Provider ε) (secondary_model_name rephrase_model_name : String)
    (secondary_model_src rephrase_model_src : ModelSrc) : Except ε Secondary := do
  let s_model_info ← P.model_info_from_name secondary_model_name secondary_model_src "conversational"
  let rephrase_model_info ← P.model_info_from_name rephrase_model_name rephrase_model_src "summarization"
  Secondary.init ε P s_model_info rephrase_model_info

/-- `Secondary.from_model_names` called with only the critique model name:
Python fills the default arguments `rephrase_model_name="dev/echo"`,
`secondary_model_src=ModelSrc.AUTO`, `rephrase_model_src=ModelSrc.AUTO`. -/
def Secondary.from_model_names_default (ε : Type) (P : Provider ε) (secondary_model_name : String) :
    Except ε Secondary :=
  Secondary.from_model_names ε P secondary_model_name "dev/echo" ModelSrc.AUTO ModelSrc.AUTO

/-- A constant generation environment: every inference call returns `c`
(used to state the spec's end-to-end scenarios). -/
def constEnv (c : String) : GenEnv := fun _ _ _ => c

/-- A concrete `Secondary` instance used by witnesses, with critique model
path `"gpt2"`. -/
def sampleSecondary : Secondary :=
  ⟨⟨"gpt2"⟩, ⟨"critique-tok"⟩, ⟨"dev/echo"⟩, ⟨"rephrase-tok"⟩⟩

/-- A concrete provider used by witnesses: resolution and loading succeed
exactly when the requested name is `"good"`, and fail with the error
string `"boom"` otherwise. -/
def mixedProvider : Provider String where
  pretrained_from_info := fun info =>
    if info.name = "good" then Except.ok (⟨info.name⟩, ⟨"tok"⟩) else Except.error "boom"
  model_info_from_name := fun nm src task =>
    if nm = "good" then Except.ok ⟨nm, src, task⟩ else Except.error "boom"

/-- A fallible generation environment: the outcome of one external
inference call, which either returns generated text or fails with a
provider-chosen error of type `ε` (Python: raise an exception, e.g.
out-of-memory or unsupported input). -/
def GenEnvE (ε : Type) : Type := String → ModelRef → TokenizerRef → Except ε String

/-- Modelled from the spec: `FrameworkModel.generate_using` under the
fallible inference oracle — the same external call as `generate_using`,
with the failure channel explicit. -/
def generate_usingE (ε : Type) (env : GenEnvE ε) (prompt : String) (model : ModelRef)
    (tokenizer : TokenizerRef) : Except ε String :=
  env prompt model tokenizer

/-- `Secondary.generate` under the fallible inference oracle: the method
body wraps the call in no handler, so an inference error aborts the
method with that error. -/
def Secondary.generateE (ε : Type) (env : GenEnvE ε) (s : Secondary) (prompt : String) :
    Except ε String :=
  generate_usingE ε env prompt s.critique_model s.critique_tokenizer

/-- `Secondary.rephrase` under the fallible inference oracle. -/
def Secondary.rephraseE (ε : Type) (env : GenEnvE ε) (s : Secondary) (text : String) :
    Except ε String :=
  generate_usingE ε env text s.rephrase_model s.rephrase_tokenizer

/-- `Secondary.critique_prompt` under the fallible inference oracle: the
validity filter runs only after generation returns, and a generation
error aborts the method with that error. -/
def Secondary.critique_promptE (ε : Type) (env : GenEnvE ε) (s : Secondary) (prompt : String) :
    Except ε String := do
  let critique_response ←
    generate_usingE ε env (PROMPT_CRITIQUE_PROMPT_format prompt)
      s.critique_model s.critique_tokenizer
  return (if Secondary.is_valid_critique critique_response then critique_response else "")

/-- `Secondary.critique_response` under the fallible inference oracle. -/
def Secondary.critique_responseE (ε : Type) (env : GenEnvE ε) (s : Secondary) (response : String) :
    Except ε String := do
  let critique_response ←
    generate_usingE ε env (RESPONSE_CRITIQUE_PROMPT_format response)
      s.critique_model s.critique_tokenizer
  return (if Secondary.is_valid_critique critique_response then critique_response else "")

/-- A concrete fallible environment used by witnesses: every inference
call fails with the error string `"oom"`. -/
def failEnv : GenEnvE String := fun _ _ _ => Except.error "oom"

/-- The fallible embedding agrees with the total one wherever generation
succeeds: running a method under an always-succeeding fallible oracle
returns exactly the total method's result. -/
lemma fallible_methods_agree_on_success (env : GenEnv) (s : Secondary) (x : String) :
    Secondary.generateE Unit (fun p m t => Except.ok (env p m t)) s x
      = Except.ok (Secondary.generate env s x).1 ∧
    Secondary.rephraseE Unit (fun p m t => Except.ok (env p m t)) s x
      = Except.ok (Secondary.rephrase env s x).1 ∧
    Secondary.critique_promptE Unit (fun p m t => Except.ok (env p m t)) s x
      = Except.ok (Secondary.critique_prompt env s x).1 ∧
    Secondary.critique_responseE Unit (fun p m t => Except.ok (env p m t)) s x
      = Except.ok (Secondary.critique_response env s x).1 :=
  ⟨rfl, rfl, rfl, rfl⟩

/-- The loop of `is_valid_critique` computes exactly the negation of the
spec's case-insensitive denylist predicate (the three flag literals are
already lowercase, so lowering them is the identity). -/
lemma is_valid_critique_eq_not_marker (s : String) :
    Secondary.is_valid_critique s = !hasNegativeMarker s := by
  have h1 : lowerChars "no change" = "no change".toList := by decide
  have h2 : lowerChars "not change" = "not change".toList := by decide
  have h3 : lowerChars "not adversarial" = "not adversarial".toList := by decide
  simp [Secondary.is_valid_critique, hasNegativeMarker, no_critique_flags, containsLC,
    h1, h2, h3, Bool.or_assoc]

/-- C1: `is_valid_critique s` is false exactly when `s` contains, as a
case-insensitive substring, one of "no change", "not change",
"not adversarial"; every other string, the empty string included, is
valid. -/
theorem C1_is_valid_critique_denylist :
    (∀ s : String, Secondary.is_valid_critique s = false ↔ hasNegativeMarker s = true) ∧
    (∀ s : String, Secondary.is_valid_critique s = true ↔ hasNegativeMarker s = false) ∧
    Secondary.is_valid_critique "" = true := by
  refine ⟨fun s => ?_, fun s => ?_, by decide⟩ <;>
    rw [is_valid_critique_eq_not_marker] <;> cases hasNegativeMarker s <;> simp

/-- C2: `critique_prompt` and `critique_response` return `""` exactly when
the generated text carries a negative marker, and the generated text
unmodified otherwise; a generation of "This contains unsafe content;
suggest revision" passes through `critique_prompt` unchanged, and a
generation of "no change needed" is suppressed to `""`. -/
theorem C2_critique_filters_generation (env : GenEnv) (s : Secondary) (p r : String) :
    ((Secondary.critique_prompt env s p).1 =
      if hasNegativeMarker (env (PROMPT_CRITIQUE_PROMPT_format p)
          s.critique_model s.critique_tokenizer) then ""
      else env (PROMPT_CRITIQUE_PROMPT_format p) s.critique_model s.critique_tokenizer) ∧
    ((Secondary.critique_response env s r).1 =
      if hasNegativeMarker (env (RESPONSE_CRITIQUE_PROMPT_format r)
          s.critique_model s.critique_tokenizer) then ""
      else env (RESPONSE_CRITIQUE_PROMPT_format r) s.critique_model s.critique_tokenizer) ∧
    ((Secondary.critique_prompt
        (constEnv "This contains unsafe content; suggest revision") s "x").1 =
      "This contains unsafe content; suggest revision") ∧
    (Secondary.critique_prompt (constEnv "no change needed") s "x").1 = "" := by
  have hok : Secondary.is_valid_critique "This contains unsafe content; suggest revision"
      = true := by decide
  have hno : Secondary.is_valid_critique "no change needed" = false := by decide
  refine ⟨?_, ?_, ?_, ?_⟩
  · rw [Secondary.critique_prompt]
    simp only [generate_using, is_valid_critique_eq_not_marker]
    cases hasNegativeMarker (env (PROMPT_CRITIQUE_PROMPT_format p)
      s.critique_model s.critique_tokenizer) <;> simp
  · rw [Secondary.critique_response]
    simp only [generate_using, is_valid_critique_eq_not_marker]
    cases hasNegativeMarker (env (RESPONSE_CRITIQUE_PROMPT_format r)
      s.critique_model s.critique_tokenizer) <;> simp
  · simp [Secondary.critique_prompt, generate_using, constEnv, hok]
  · simp [Secondary.critique_prompt, generate_using, constEnv, hno]

/-- C3: `make_conscience_prompt` and `make_correction_prompt` are pure
(equal inputs give equal outputs) and both argument strings occur as
substrings of the result. -/
theorem C3_formatters_pure_and_embedding (p c p2 c2 : String) (hp : p = p2) (hc : c = c2) :
    (Secondary.make_conscience_prompt p c = Secondary.make_conscience_prompt p2 c2) ∧
    (Secondary.make_correction_prompt p c = Secondary.make_correction_prompt p2 c2) ∧
    p.toList <:+: (Secondary.make_conscience_prompt p c).toList ∧
    c.toList <:+: (Secondary.make_conscience_prompt p c).toList ∧
    p.toList <:+: (Secondary.make_correction_prompt p c).toList ∧
    c.toList <:+: (Secondary.make_correction_prompt p c).toList := by
  subst hp; subst hc
  refine ⟨rfl, rfl, ?_, ?_, ?_, ?_⟩
  · show p.toList <:+:
      ("Your conscience flagged this input: " ++ c ++ " The original input was: " ++ p).toList
    simpa using (List.suffix_append
      ("Your conscience flagged this input: " ++ c ++ " The original input was: ").toList
      p.toList).isInfix
  · show c.toList <:+:
      ("Your conscience flagged this input: " ++ c ++ " The original input was: " ++ p).toList
    have := List.infix_append "Your conscience flagged this input: ".toList c.toList
      (" The original input was: ".toList ++ p.toList)
    simpa [List.append_assoc] using this
  · show p.toList <:+:
      ("Please revise this response: " ++ p ++ " using this critique: " ++ c).toList
    have := List.infix_append "Please revise this response: ".toList p.toList
      (" using this critique: ".toList ++ c.toList)
    simpa [List.append_assoc] using this
  · show c.toList <:+:
      ("Please revise this response: " ++ p ++ " using this critique: " ++ c).toList
    simpa using (List.suffix_append
      ("Please revise this response: " ++ p ++ " using this critique: ").toList
      c.toList).isInfix

/-- Closed instance of C3 at concrete arguments. -/
theorem C3_formatters_pure_and_embedding_witness :
    (Secondary.make_conscience_prompt "ask" "crit" = Secondary.make_conscience_prompt "ask" "crit") ∧
    (Secondary.make_correction_prompt "ask" "crit" = Secondary.make_correction_prompt "ask" "crit") ∧
    "ask".toList <:+: (Secondary.make_conscience_prompt "ask" "crit").toList ∧
    "crit".toList <:+: (Secondary.make_conscience_prompt "ask" "crit").toList ∧
    "ask".toList <:+: (Secondary.make_correction_prompt "ask" "crit").toList ∧
    "crit".toList <:+: (Secondary.make_correction_prompt "ask" "crit").toList :=
  C3_formatters_pure_and_embedding "ask" "crit" "ask" "crit" rfl rfl

/-- C4: every method of `Secondary` leaves the instance state, and so the
four model/tokenizer references bound at construction, unchanged. -/
theorem C4_references_never_replaced (env : GenEnv) (s : Secondary) (x : String) :
    (Secondary.generate env s x).2 = s ∧
    (Secondary.rephrase env s x).2 = s ∧
    (Secondary.critique_prompt env s x).2 = s ∧
    (Secondary.critique_response env s x).2 = s ∧
    (Secondary.critique_prompt env s x).2.critique_model = s.critique_model ∧
    (Secondary.critique_prompt env s x).2.critique_tokenizer = s.critique_tokenizer ∧
    (Secondary.critique_prompt env s x).2.rephrase_model = s.rephrase_model ∧
    (Secondary.critique_prompt env s x).2.rephrase_tokenizer = s.rephrase_tokenizer :=
  ⟨rfl, rfl, rfl, rfl, rfl, rfl, rfl, rfl⟩

/-- C5: every failure of model/tokenizer resolution (either
`pretrained_from_info` call in `__init__`, either `model_info_from_name`
call in `from_model_names`) and every failure of a generation call (in
`generate`, `rephrase`, `critique_prompt`, `critique_response`)
propagates to the caller as exactly the provider's error: no catch, no
retry, no module-specific error kind. -/
theorem C5_errors_propagate_unmodified (ε : Type) (P : Provider ε) (env : GenEnvE ε) (e : ε)
    (ci ri : ModelInfo) (n r : String) (s1 s2 : ModelSrc) (s : Secondary) (x : String) :
    (P.pretrained_from_info ci = Except.error e →
      Secondary.init ε P ci ri = Except.error e) ∧
    (∀ cp, P.pretrained_from_info ci = Except.ok cp →
      P.pretrained_from_info ri = Except.error e →
      Secondary.init ε P ci ri = Except.error e) ∧
    (P.model_info_from_name n s1 "conversational" = Except.error e →
      Secondary.from_model_names ε P n r s1 s2 = Except.error e) ∧
    (∀ si, P.model_info_from_name n s1 "conversational" = Except.ok si →
      P.model_info_from_name r s2 "summarization" = Except.error e →
      Secondary.from_model_names ε P n r s1 s2 = Except.error e) ∧
    (env x s.critique_model s.critique_tokenizer = Except.error e →
      Secondary.generateE ε env s x = Except.error e) ∧
    (env x s.rephrase_model s.rephrase_tokenizer = Except.error e →
      Secondary.rephraseE ε env s x = Except.error e) ∧
    (env (PROMPT_CRITIQUE_PROMPT_format x) s.critique_model s.critique_tokenizer
        = Except.error e →
      Secondary.critique_promptE ε env s x = Except.error e) ∧
    (env (RESPONSE_CRITIQUE_PROMPT_format x) s.critique_model s.critique_tokenizer
        = Except.error e →
      Secondary.critique_responseE ε env s x = Except.error e) := by
  refine ⟨fun h => ?_, fun cp h1 h2 => ?_, fun h => ?_, fun si h1 h2 => ?_,
    fun h => ?_, fun h => ?_, fun h => ?_, fun h => ?_⟩
  · simp only [Secondary.init, h]; rfl
  · simp only [Secondary.init, h1, h2]; rfl
  · simp only [Secondary.from_model_names, h]; rfl
  · simp only [Secondary.from_model_names, h1, h2]; rfl
  · simp only [Secondary.generateE, generate_usingE, h]
  · simp only [Secondary.rephraseE, generate_usingE, h]
  · simp only [Secondary.critique_promptE, generate_usingE, h]; rfl
  · simp only [Secondary.critique_responseE, generate_usingE, h]; rfl

/-- Closed instance of C5 on `mixedProvider`, which fails with `"boom"`
for every name other than `"good"`, and on `failEnv`, under which every
generation call fails with `"oom"`. -/
theorem C5_errors_propagate_unmodified_witness :
    Secondary.init String mixedProvider ⟨"bad", ModelSrc.AUTO, "conversational"⟩
        ⟨"good", ModelSrc.AUTO, "summarization"⟩ = Except.error "boom" ∧
    Secondary.init String mixedProvider ⟨"good", ModelSrc.AUTO, "conversational"⟩
        ⟨"bad", ModelSrc.AUTO, "summarization"⟩ = Except.error "boom" ∧
    Secondary.from_model_names String mixedProvider "bad" "good"
        ModelSrc.AUTO ModelSrc.AUTO = Except.error "boom" ∧
    Secondary.from_model_names String mixedProvider "good" "bad"
        ModelSrc.AUTO ModelSrc.AUTO = Except.error "boom" ∧
    Secondary.generateE String failEnv sampleSecondary "x" = Except.error "oom" ∧
    Secondary.rephraseE String failEnv sampleSecondary "x" = Except.error "oom" ∧
    Secondary.critique_promptE String failEnv sampleSecondary "x" = Except.error "oom" ∧
    Secondary.critique_responseE String failEnv sampleSecondary "x" = Except.error "oom" := by
  refine ⟨?_, ?_, ?_, ?_, ?_, ?_, ?_, ?_⟩
  · exact (C5_errors_propagate_unmodified String mixedProvider failEnv "boom"
      ⟨"bad", ModelSrc.AUTO, "conversational"⟩ ⟨"good", ModelSrc.AUTO, "summarization"⟩
      "bad" "good" ModelSrc.AUTO ModelSrc.AUTO sampleSecondary "x").1 rfl
  · exact (C5_errors_propagate_unmodified String mixedProvider failEnv "boom"
      ⟨"good", ModelSrc.AUTO, "conversational"⟩ ⟨"bad", ModelSrc.AUTO, "summarization"⟩
      "bad" "good" ModelSrc.AUTO ModelSrc.AUTO sampleSecondary "x").2.1
      (⟨"good"⟩, ⟨"tok"⟩) rfl rfl
  · exact (C5_errors_propagate_unmodified String mixedProvider failEnv "boom"
      ⟨"bad", ModelSrc.AUTO, "conversational"⟩ ⟨"good", ModelSrc.AUTO, "summarization"⟩
      "bad" "good" ModelSrc.AUTO ModelSrc.AUTO sampleSecondary "x").2.2.1 rfl
  · exact (C5_errors_propagate_unmodified String mixedProvider failEnv "boom"
      ⟨"good", ModelSrc.AUTO, "conversational"⟩ ⟨"bad", ModelSrc.AUTO, "summarization"⟩
      "good" "bad" ModelSrc.AUTO ModelSrc.AUTO sampleSecondary "x").2.2.2.1
      ⟨"good", ModelSrc.AUTO, "conversational"⟩ rfl rfl
  · exact (C5_errors_propagate_unmodified String mixedProvider failEnv "oom"
      ⟨"bad", ModelSrc.AUTO, "conversational"⟩ ⟨"good", ModelSrc.AUTO, "summarization"⟩
      "bad" "good" ModelSrc.AUTO ModelSrc.AUTO sampleSecondary "x").2.2.2.2.1 rfl
  · exact (C5_errors_propagate_unmodified String mixedProvider failEnv "oom"
      ⟨"bad", ModelSrc.AUTO, "conversational"⟩ ⟨"good", ModelSrc.AUTO, "summarization"⟩
      "bad" "good" ModelSrc.AUTO ModelSrc.AUTO sampleSecondary "x").2.2.2.2.2.1 rfl
  · exact (C5_errors_propagate_unmodified String mixedProvider failEnv "oom"
      ⟨"bad", ModelSrc.AUTO, "conversational"⟩ ⟨"good", ModelSrc.AUTO, "summarization"⟩
      "bad" "good" ModelSrc.AUTO ModelSrc.AUTO sampleSecondary "x").2.2.2.2.2.2.1 rfl
  · exact (C5_errors_propagate_unmodified String mixedProvider failEnv "oom"
      ⟨"bad", ModelSrc.AUTO, "conversational"⟩ ⟨"good", ModelSrc.AUTO, "summarization"⟩
      "bad" "good" ModelSrc.AUTO ModelSrc.AUTO sampleSecondary "x").2.2.2.2.2.2.2 rfl

/-- C6: the `name` property is always the critique model's
`name_or_path` wrapped in the fixed `S(...)` prefix; with critique model
path `"gpt2"` it is `"S(gpt2)"`. -/
theorem C6_name_prefixes_critique_path (s : Secondary)
    (hs : s.critique_model.name_or_path = "gpt2") :
    (∀ t : Secondary, Secondary.name t = "S(" ++ t.critique_model.name_or_path ++ ")") ∧
    Secondary.name s = "S(gpt2)" := by
  refine ⟨fun t => rfl, ?_⟩
  rw [Secondary.name, hs]
  rfl

/-- Closed instance of C6 on `sampleSecondary`, whose critique model path
is `"gpt2"`. -/
theorem C6_name_prefixes_critique_path_witness :
    (∀ t : Secondary, Secondary.name t = "S(" ++ t.critique_model.name_or_path ++ ")") ∧
    Secondary.name sampleSecondary = "S(gpt2)" :=
  C6_name_prefixes_critique_path sampleSecondary rfl

/-- C7: calling the factory with only the critique name is the call with
rephrase name `"dev/echo"` and both sources `AUTO`; it resolves the
critique name with task `"conversational"`, then `"dev/echo"` with task
`"summarization"`, and delegates the two descriptors to `__init__`. -/
theorem C7_default_rephrase_is_dev_echo (ε : Type) (P : Provider ε) (n : String) :
    Secondary.from_model_names_default ε P n
      = Secondary.from_model_names ε P n "dev/echo" ModelSrc.AUTO ModelSrc.AUTO ∧
    Secondary.from_model_names_default ε P n
      = (P.model_info_from_name n ModelSrc.AUTO "conversational").bind (fun si =>
          (P.model_info_from_name "dev/echo" ModelSrc.AUTO "summarization").bind (fun ri =>
            Secondary.init ε P si ri)) := by
  constructor
  · rfl
  · rw [Secondary.from_model_names_default, Secondary.from_model_names]
    cases P.model_info_from_name n ModelSrc.AUTO "conversational" <;>
      simp [Except.bind, Bind.bind]

/-- C8: `from_model_names` always resolves the critique name with the
fixed task tag `"conversational"` and the rephrase name with
`"summarization"`, whatever names and sources are supplied; its result
depends on the provider only through those two task tags (and loading),
so no caller can override them. -/
theorem C8_task_tags_fixed (ε : Type) (P P2 : Provider ε) (n r : String) (s1 s2 : ModelSrc)
    (hconv : ∀ nm src, P2.model_info_from_name nm src "conversational"
      = P.model_info_from_name nm src "conversational")
    (hsum : ∀ nm src, P2.model_info_from_name nm src "summarization"
      = P.model_info_from_name nm src "summarization")
    (hload : P2.pretrained_from_info = P.pretrained_from_info) :
    Secondary.from_model_names ε P n r s1 s2
      = (P.model_info_from_name n s1 "conversational").bind (fun si =>
          (P.model_info_from_name r s2 "summarization").bind (fun ri =>
            Secondary.init ε P si ri)) ∧
    Secondary.from_model_names ε P2 n r s1 s2
      = Secondary.from_model_names ε P n r s1 s2 := by
  constructor
  · rw [Secondary.from_model_names]
    cases P.model_info_from_name n s1 "conversational" <;>
      simp [Except.bind, Bind.bind]
  · rw [Secondary.from_model_names, Secondary.from_model_names, hconv, hsum]
    cases P.model_info_from_name n s1 "conversational" <;>
      cases hr : P.model_info_from_name r s2 "summarization" <;>
        simp [Except.bind, Bind.bind, Secondary.init, hload, hr]

/-- Closed instance of C8 on `mixedProvider` (taken for both providers). -/
theorem C8_task_tags_fixed_witness :
    Secondary.from_model_names String mixedProvider "good" "good" ModelSrc.AUTO ModelSrc.AUTO
      = (mixedProvider.model_info_from_name "good" ModelSrc.AUTO "conversational").bind (fun si =>
          (mixedProvider.model_info_from_name "good" ModelSrc.AUTO "summarization").bind (fun ri =>
            Secondary.init String mixedProvider si ri)) ∧
    Secondary.from_model_names String mixedProvider "good" "good" ModelSrc.AUTO ModelSrc.AUTO
      = Secondary.from_model_names String mixedProvider "good" "good" ModelSrc.AUTO ModelSrc.AUTO :=
  C8_task_tags_fixed String mixedProvider mixedProvider "good" "good" ModelSrc.AUTO ModelSrc.AUTO
    (fun _ _ => rfl) (fun _ _ => rfl) rfl

/-- C9: the suppression decision of `critique_prompt` and
`critique_response` depends only on the generated critique text: two calls
whose generation calls return the same text produce the same result, even
across different instances, environments and input texts (so an input that
itself contains a negative marker is never inspected by the denylist). -/
theorem C9_suppression_reads_generation_only (env env2 : GenEnv)
    (s s2 : Secondary) (p p2 r r2 : String)
    (hp : env (PROMPT_CRITIQUE_PROMPT_format p) s.critique_model s.critique_tokenizer
        = env2 (PROMPT_CRITIQUE_PROMPT_format p2) s2.critique_model s2.critique_tokenizer)
    (hr : env (RESPONSE_CRITIQUE_PROMPT_format r) s.critique_model s.critique_tokenizer
        = env2 (RESPONSE_CRITIQUE_PROMPT_format r2) s2.critique_model s2.critique_tokenizer) :
    (Secondary.critique_prompt env s p).1 = (Secondary.critique_prompt env2 s2 p2).1 ∧
    (Secondary.critique_response env s r).1 = (Secondary.critique_response env2 s2 r2).1 := by
  constructor
  · rw [Secondary.critique_prompt, Secondary.critique_prompt]
    simp only [generate_using, hp]
  · rw [Secondary.critique_response, Secondary.critique_response]
    simp only [generate_using, hr]

/-- Closed instance of C9: a constant environment, one input containing
"no change" and one not, same generated text, same results. -/
theorem C9_suppression_reads_generation_only_witness :
    (Secondary.critique_prompt (constEnv "unsafe; revise") sampleSecondary
        "please do no change here").1
      = (Secondary.critique_prompt (constEnv "unsafe; revise") sampleSecondary "x").1 ∧
    (Secondary.critique_response (constEnv "unsafe; revise") sampleSecondary
        "please do no change here").1
      = (Secondary.critique_response (constEnv "unsafe; revise") sampleSecondary "x").1 :=
  C9_suppression_reads_generation_only (constEnv "unsafe; revise") (constEnv "unsafe; revise")
    sampleSecondary sampleSecondary "please do no change here" "x"
    "please do no change here" "x" rfl rfl

/-- C10: the empty generation output is a valid critique, so
`critique_prompt` and `critique_response` return `""` through the valid
branch when generation returns `""`; consequently a suppressed critique
and an empty generation are indistinguishable in the returned value. -/
theorem C10_empty_generation_indistinguishable (env : GenEnv) (s : Secondary) (p r : String)
    (hp : env (PROMPT_CRITIQUE_PROMPT_format p) s.critique_model s.critique_tokenizer = "")
    (hr : env (RESPONSE_CRITIQUE_PROMPT_format r) s.critique_model s.critique_tokenizer = "") :
    Secondary.is_valid_critique "" = true ∧
    (Secondary.critique_prompt env s p).1 = "" ∧
    (Secondary.critique_response env s r).1 = "" ∧
    (Secondary.critique_prompt (constEnv "") s "x").1
      = (Secondary.critique_prompt (constEnv "no change needed") s "x").1 := by
  have hvalid : Secondary.is_valid_critique "" = true := by decide
  have hno : Secondary.is_valid_critique "no change needed" = false := by decide
  refine ⟨hvalid, ?_, ?_, ?_⟩
  · rw [Secondary.critique_prompt]
    simp [generate_using, hp, hvalid]
  · rw [Secondary.critique_response]
    simp [generate_using, hr, hvalid]
  · rw [Secondary.critique_prompt, Secondary.critique_prompt]
    simp [generate_using, constEnv, hvalid, hno]

/-- Closed instance of C10 under the constant empty environment. -/
theorem C10_empty_generation_indistinguishable_witness :
    Secondary.is_valid_critique "" = true ∧
    (Secondary.critique_prompt (constEnv "") sampleSecondary "x").1 = "" ∧
    (Secondary.critique_response (constEnv "") sampleSecondary "x").1 = "" ∧
    (Secondary.critique_prompt (constEnv "") sampleSecondary "x").1
      = (Secondary.critique_prompt (constEnv "no change needed") sampleSecondary "x").1 :=
  C10_empty_generation_indistinguishable (constEnv "") sampleSecondary "x" "x" rfl rfl
